import Mathlib

/-!
A shallow embedding of the browser automation tool
(`src/tools/browser/browser.ts`): ref parsing from accessibility-tree
snapshots, ref-to-locator resolution, snapshot truncation, and the
action dispatcher with its module-level session state.

Pure string manipulation is embedded at the character-list level so the
JavaScript regular expressions are modelled faithfully (leftmost match,
greedy character classes). The Playwright driver is external: it is
modelled as an environment of call results, and each embedded operation
additionally returns the trace of driver calls it performed, so that
claims about "no driver call attempted" are statable.
-/

namespace Browser

/-! ## Character classes used by the JS regexes (ASCII semantics) -/

/-- JS `\d`: ASCII decimal digit. -/
def isDigitC (c : Char) : Bool := c.isDigit

/-- JS `\w` (no unicode flag): ASCII letter, digit or underscore. -/
def isWordC (c : Char) : Bool := c.isAlpha || c.isDigit || c = '_'

/-- JS `\s` restricted to the ASCII whitespace that can occur in a
snapshot line (space, tab, CR, LF, vertical tab, form feed). -/
def isSpaceC (c : Char) : Bool :=
  c = ' ' || c = '\t' || c = '\n' || c = '\r' ||
  c = Char.ofNat 11 || c = Char.ofNat 12

/-! ## Regex-faithful scanners

`tryTag tag cs` models matching the pattern `tag ++ \d+ ++ "]"` at the
current position: the literal `tag`, then a maximal nonempty digit run,
then a closing bracket (backtracking cannot shorten the digit run
because any shorter run is followed by a digit, not `]`). `scanTag`
finds the leftmost such match, as `String.prototype.match` does. -/

def tryTag (tag : List Char) (cs : List Char) : Option (List Char) :=
  if tag.isPrefixOf cs then
    if ((cs.drop tag.length).takeWhile isDigitC).isEmpty then none
    else
      match (cs.drop tag.length).drop
          ((cs.drop tag.length).takeWhile isDigitC).length with
      | ']' :: _ => some ((cs.drop tag.length).takeWhile isDigitC)
      | _ => none
  else none

def scanTag (tag : List Char) : List Char → Option (List Char)
  | [] => none
  | c :: rest =>
    match tryTag tag (c :: rest) with
    | some ds => some ds
    | none => scanTag tag rest

/-- Embeds `line.match(/\[ref=(e\d+)\]/)`: the captured group `e` + digits of
the leftmost `[ref=eN]` marker, if any. -/
def findRefId (cs : List Char) : Option String :=
  (scanTag "[ref=e".data cs).map (fun ds => String.mk ('e' :: ds))

/-- Decimal value of a digit run (JS `parseInt(ds, 10)` on `\d+`). -/
def digitsToNat (ds : List Char) : Nat :=
  ds.foldl (fun a c => a * 10 + (c.toNat - 48)) 0

/-- Embeds `line.match(/\[nth=(\d+)\]/)` followed by `parseInt`. -/
def findNth (cs : List Char) : Option Nat :=
  (scanTag "[nth=".data cs).map digitsToNat

/-- Embeds `line.match(/^\s*-\s*(\w+)/)`: the first word token after the
leading `- ` bullet. The character classes are disjoint, so the greedy
stars need no backtracking. -/
def parseRole (cs : List Char) : Option String :=
  match cs.dropWhile isSpaceC with
  | '-' :: rest =>
    let w := (rest.dropWhile isSpaceC).takeWhile isWordC
    if w.isEmpty then none else some (String.mk w)
  | _ => none

/-- Embeds `line.match(/"([^"]+)"/)`: the leftmost nonempty double-quoted
substring. When the candidate at an opening quote fails (empty body or
no closing quote), the scan resumes one character later, which is
exactly the leftmost-match discipline. -/
def findQuoted : List Char → Option String
  | [] => none
  | c :: rest =>
    if c = '"' then
      match rest.drop (rest.takeWhile (fun x => x ≠ '"')).length with
      | '"' :: _ =>
        if (rest.takeWhile (fun x => x ≠ '"')).isEmpty then findQuoted rest
        else some (String.mk (rest.takeWhile (fun x => x ≠ '"')))
      | _ => findQuoted rest
    else findQuoted rest

/-! ## Ref entries and the ref table -/

/-- One parsed snapshot node: `{ role: string; name?: string; nth?: number }`. -/
structure RefEntry where
  role : String
  name : Option String
  nth : Option Nat
deriving Repr, DecidableEq

/-- The map `Map<string, RefEntry>` as an association list in insertion order. -/
def RefTable := List (String × RefEntry)
deriving Repr, DecidableEq

instance : EmptyCollection RefTable := ⟨([] : List (String × RefEntry))⟩

/-- Embeds `Map.prototype.set`: replace the value at an existing key in place,
otherwise append the new binding at the end. -/
def RefTable.set : RefTable → String → RefEntry → RefTable
  | [], k, v => [(k, v)]
  | (k', v') :: t, k, v =>
    if k' = k then (k, v) :: t else (k', v') :: RefTable.set t k v

/-- Embeds `Map.prototype.get`. -/
def RefTable.get : RefTable → String → Option RefEntry
  | [], _ => none
  | (k', v') :: t, k => if k' = k then some v' else RefTable.get t k

/-- Embeds `Map.prototype.size`. -/
def RefTable.size (t : RefTable) : Nat := List.length t

/-- The keys of the table, in insertion order. -/
def RefTable.keys (t : RefTable) : List String := List.map Prod.fst t

/-- JS `snapshot.split('\n')` over character lists: maximal runs of
non-newline characters, with empty segments preserved. -/
def splitLinesAux : List Char → List Char → List (List Char)
  | [], acc => [acc.reverse]
  | c :: rest, acc =>
    if c = '\n' then acc.reverse :: splitLinesAux rest []
    else splitLinesAux rest (c :: acc)

def splitLines (cs : List Char) : List (List Char) := splitLinesAux cs []

/-- The parse of one snapshot line: `none` when the line carries no
`[ref=eN]` marker, otherwise the ref id with its extracted attributes
(role defaulting to `"generic"`, first quoted name, optional nth). -/
def lineRef (line : List Char) : Option (String × RefEntry) :=
  match findRefId line with
  | none => none
  | some ref =>
    some (ref,
      { role := (parseRole line).getD "generic"
        name := findQuoted line
        nth := findNth line })

/-- The loop body of `parseRefsFromSnapshot`: lines without a ref marker
leave the table alone, ref-bearing lines insert (overwriting a previous
entry with the same id). -/
def insertLine (t : RefTable) (line : List Char) : RefTable :=
  match lineRef line with
  | none => t
  | some (r, e) => t.set r e

/-- The function `parseRefsFromSnapshot`: split on newlines and fold every
ref-bearing line into a fresh table, later lines overwriting earlier
entries with the same id. -/
def parseRefsFromSnapshot (snapshot : String) : RefTable :=
  (splitLines snapshot.data).foldl insertLine ([] : List (String × RefEntry))

/-! ## Locators and ref resolution -/

/-- The element-targeting strategy the resolver builds: either a raw
`aria-ref=` selector (the fallback for refs absent from the table), or a
`getByRole` target with optional exact accessible-name filter, possibly
narrowed by `.nth`. -/
inductive Locator where
  | ariaRef (selector : String)
  | byRole (role : String) (name : Option String) (exact : Bool) (nthIndex : Option Nat)
deriving Repr, DecidableEq

/-- The function `resolveRefToLocator`: look the ref up in the table; absent refs fall
back to the raw `aria-ref=${ref}` selector. Present refs build a
role-based locator; `options.name`/`options.exact` are set only when the
stored name is truthy (JS: nonempty), and `.nth` is applied only when the
stored nth is a number strictly greater than zero. -/
def resolveRefToLocator (refs : RefTable) (ref : String) : Locator :=
  match refs.get ref with
  | none => .ariaRef ("aria-ref=" ++ ref)
  | some refData =>
    let nameOpt : Option String :=
      match refData.name with
      | some n => if n.data.isEmpty then none else some n
      | none => none
    let nthIndex : Option Nat :=
      match refData.nth with
      | some k => if k > 0 then some k else none
      | none => none
    .byRole refData.role nameOpt nameOpt.isSome nthIndex

/-- A live page element as far as role-based location observes it: its
ARIA role and accessible name, plus a document-order identity so that
distinct same-role/name nodes stay distinguishable. Modelled Playwright
surface. -/
structure Element where
  id : Nat
  role : String
  accName : String
deriving Repr, DecidableEq

/-- Modelled Playwright semantics of `getByRole(role, { name, exact: true })`:
the candidates, in document order, with the given role and (when a name
filter is present) exactly that accessible name. -/
def roleCandidates (es : List Element) (role : String) (name : Option String) :
    List Element :=
  es.filter (fun el =>
    el.role == role &&
    match name with
    | some n => el.accName == n
    | none => true)

/-- Modelled Playwright selection of a role-based locator: `.nth(k)`
picks the k-th (zero-based) candidate, and a locator without `.nth`
resolves to the first candidate. -/
def byRoleSelect (es : List Element) (role : String) (name : Option String)
    (nthIndex : Option Nat) : Option Element :=
  (roleCandidates es role name).get? (nthIndex.getD 0)

/-- Selection of a resolved locator over the element model. A raw
`aria-ref=` locator addresses the driver's internal reference tracking,
which the role/name element model does not observe, so it selects no
element here; role-based locators select via `byRoleSelect`. -/
def locatorSelect (es : List Element) : Locator → Option Element
  | .ariaRef _ => none
  | .byRole role name _ nthIndex => byRoleSelect es role name nthIndex

/-! ## Session state, driver environment and call traces

The module-level mutable singletons `browser`, `page` and `currentRefs`
become an explicit state record; the Playwright driver becomes an
environment of call results (each fallible driver call is an
`Except String _`), and every embedded operation returns, besides its
result and the new state, the list of driver calls it performed. -/

/-- One call into the Playwright driver. -/
inductive DriverCall where
  | launch
  | newContext
  | newPage (ctx : Nat)
  | goto (pg : Nat) (url : String)
  | waitForLoadState (pg : Nat)
  | snapshotForAI (pg : Nat)
  | ariaSnapshot (pg : Nat)
  | click (pg : Nat) (loc : Locator)
  | fill (pg : Nat) (loc : Locator) (text : String)
  | hover (pg : Nat) (loc : Locator)
  | keyboardPress (key : String)
  | mouseWheel (dy : Int)
  | waitForTimeout (ms : Nat)
  | evaluateText (pg : Nat)
  | browserClose
deriving Repr, DecidableEq

/-- The module-level state of `browser.ts`: `browser`/`page` nullable
references and the `currentRefs` map, plus the bookkeeping the embedding
needs (the set of pages the browser still owns, with their owning
context, and a fresh-id counter). -/
structure ToolState where
  browser : Bool
  pages : List (Nat × Nat)
  page : Option Nat
  currentRefs : RefTable
  fresh : Nat
deriving Repr, DecidableEq

/-- The state before any action: no browser, no page, empty ref table. -/
def initialState : ToolState :=
  { browser := false, pages := [], page := none
    currentRefs := ([] : List (String × RefEntry)), fresh := 0 }

/-- The owning context of a page the session knows about. -/
def ToolState.ctxOf (s : ToolState) (pg : Nat) : Option Nat :=
  (s.pages.find? (fun q => q.1 == pg)).map (fun q => q.2)

/-- Results of the external Playwright calls, per input. Fallible calls
deliver `Except`: an `error` models the promise rejecting. -/
structure Driver where
  launchRes : Except String Unit
  newContextRes : Except String Unit
  newPageRes : Except String Unit
  gotoRes : String → Except String Unit
  urlOf : Nat → String
  titleOf : Nat → String
  hasSnapshotForAI : Bool
  snapshotForAIRes : Nat → Except String (Option String)
  ariaSnapshotRes : Nat → Except String String
  clickRes : Locator → Except String Unit
  fillRes : Locator → String → Except String Unit
  hoverRes : Locator → Except String Unit
  pressRes : String → Except String Unit
  readRes : Nat → Except String String
  closeRes : Except String Unit

/-- The function `ensureBrowser`: launch the browser if absent, then open a context
and page if absent; returns the active page. -/
def ensureBrowser (d : Driver) (s : ToolState) :
    Except String Nat × ToolState × List DriverCall :=
  let step1 : Except String Unit × ToolState × List DriverCall :=
    if s.browser then (Except.ok (), s, [])
    else
      match d.launchRes with
      | .ok _ => (Except.ok (), { s with browser := true }, [DriverCall.launch])
      | .error e => (Except.error e, s, [DriverCall.launch])
  match step1 with
  | (.error e, s₁, t₁) => (.error e, s₁, t₁)
  | (.ok _, s₁, t₁) =>
    match s₁.page with
    | some p => (.ok p, s₁, t₁)
    | none =>
      match d.newContextRes with
      | .error e => (.error e, s₁, t₁ ++ [DriverCall.newContext])
      | .ok _ =>
        let ctx := s₁.fresh
        match d.newPageRes with
        | .error e => (.error e, s₁, t₁ ++ [DriverCall.newContext, DriverCall.newPage ctx])
        | .ok _ =>
          let pg := s₁.fresh + 1
          (.ok pg,
           { s₁ with pages := s₁.pages ++ [(pg, ctx)], page := some pg, fresh := s₁.fresh + 2 },
           t₁ ++ [DriverCall.newContext, DriverCall.newPage ctx])

/-- The function `closeBrowser`: close the browser (cascading over all its pages) and
null out the state; a no-op when no browser exists. When `browser.close()`
rejects, the nulling assignments are not reached. -/
def closeBrowser (d : Driver) (s : ToolState) :
    Except String Unit × ToolState × List DriverCall :=
  if s.browser then
    match d.closeRes with
    | .error e => (.error e, s, [DriverCall.browserClose])
    | .ok _ =>
      (.ok (),
       { s with browser := false, pages := [], page := none
                currentRefs := ([] : List (String × RefEntry)) },
       [DriverCall.browserClose])
  else (.ok (), s, [])

/-- The literal truncation marker appended to over-long snapshots. -/
def truncationMarker : String :=
  "\n\n[...TRUNCATED - page too large, use read action for full text]"

/-- The function `takeSnapshot`: obtain the tree text (the AI-optimized probe when the
driver exposes it, else the generic ARIA serialization), replace
`currentRefs` with the freshly parsed table, then truncate to
`maxChars ?? 50000` characters, appending the marker when truncation
occurred. -/
def takeSnapshot (d : Driver) (pg : Nat) (maxChars : Option Nat) (s : ToolState) :
    Except String (String × Bool) × ToolState × List DriverCall :=
  let raw : Except String String × List DriverCall :=
    if d.hasSnapshotForAI then
      (match d.snapshotForAIRes pg with
       | .error e => .error e
       | .ok full => .ok (full.getD ""),
       [DriverCall.snapshotForAI pg])
    else
      (match d.ariaSnapshotRes pg with
       | .error e => .error e
       | .ok t => .ok t,
       [DriverCall.ariaSnapshot pg])
  match raw with
  | (.error e, t₁) => (.error e, s, t₁)
  | (.ok snap, t₁) =>
    let s' := { s with currentRefs := parseRefsFromSnapshot snap }
    let limit := maxChars.getD 50000
    if snap.data.length > limit then
      (.ok (String.mk (snap.data.take limit) ++ truncationMarker, true), s', t₁)
    else
      (.ok (snap, false), s', t₁)

/-! ## The action dispatcher -/

/-- A field value in the payload handed to `formatToolResult`. -/
inductive JVal where
  | s (v : String)
  | b (v : Bool)
  | n (v : Nat)
  | table (v : RefTable)
deriving Repr, DecidableEq

/-- The payload object handed to the (external) `formatToolResult`
envelope serializer: a list of named fields. -/
def ToolResult := List (String × JVal)
deriving Repr, DecidableEq

/-- Embeds `formatToolResult({ error: msg })`. -/
def errorResult (msg : String) : ToolResult := [("error", JVal.s msg)]

/-- Does the payload report an error (an `error` field is present)? -/
def ToolResult.isError (r : ToolResult) : Bool :=
  List.any r (fun f => f.1 == "error")

/-- The act sub-kinds (`kind` enum). `typeText` embeds the `"type"` kind. -/
inductive ActKind where
  | click | typeText | press | hover | scroll | wait
deriving Repr, DecidableEq

inductive ScrollDir where
  | up | down
deriving Repr, DecidableEq

def ScrollDir.text : ScrollDir → String
  | .up => "up"
  | .down => "down"

/-- The `request` object of the act action. -/
structure ActRequest where
  kind : ActKind
  ref : Option String := none
  text : Option String := none
  key : Option String := none
  direction : Option ScrollDir := none
  timeMs : Option Nat := none
deriving Repr, DecidableEq

/-- JS falsiness of an optional string field (`!x`): absent or empty. -/
def strFalsy : Option String → Bool
  | none => true
  | some v => v.data.isEmpty

/-- The top-level actions of the tool schema. `openTab` embeds `"open"`. -/
inductive Action where
  | navigate | openTab | snapshot | act | read | close
deriving Repr, DecidableEq

/-- The `navigate` case: validate `url`, ensure a live page, `goto` with
the hard 30s bound, return identity metadata only. -/
def navigateCase (d : Driver) (s : ToolState) (url : Option String) :
    Except String ToolResult × ToolState × List DriverCall :=
  if strFalsy url then
    (.ok (errorResult "url is required for navigate action"), s, [])
  else
    let u := url.getD ""
    match ensureBrowser d s with
    | (.error e, s₁, t₁) => (.error e, s₁, t₁)
    | (.ok p, s₁, t₁) =>
      match d.gotoRes u with
      | .error e => (.error e, s₁, t₁ ++ [DriverCall.goto p u])
      | .ok _ =>
        (.ok [("ok", JVal.b true), ("url", JVal.s (d.urlOf p)),
              ("title", JVal.s (d.titleOf p)),
              ("hint", JVal.s "Page loaded. Call snapshot to see page structure and find elements to interact with.")],
         s₁, t₁ ++ [DriverCall.goto p u])

/-- The `open` case: validate `url`, ensure a live page, create a fresh
page in the current page's browsing context, `goto`, and only then move
the active-page pointer to the new page. The previous page is not
closed. -/
def openCase (d : Driver) (s : ToolState) (url : Option String) :
    Except String ToolResult × ToolState × List DriverCall :=
  if strFalsy url then
    (.ok (errorResult "url is required for open action"), s, [])
  else
    let u := url.getD ""
    match ensureBrowser d s with
    | (.error e, s₁, t₁) => (.error e, s₁, t₁)
    | (.ok cur, s₁, t₁) =>
      let ctx := (s₁.ctxOf cur).getD 0
      match d.newPageRes with
      | .error e => (.error e, s₁, t₁ ++ [DriverCall.newPage ctx])
      | .ok _ =>
        let np := s₁.fresh
        let s₂ := { s₁ with pages := s₁.pages ++ [(np, ctx)], fresh := s₁.fresh + 1 }
        let t₂ := t₁ ++ [DriverCall.newPage ctx, DriverCall.goto np u]
        match d.gotoRes u with
        | .error e => (.error e, s₂, t₂)
        | .ok _ =>
          (.ok [("ok", JVal.b true), ("url", JVal.s (d.urlOf np)),
                ("title", JVal.s (d.titleOf np)),
                ("hint", JVal.s "New tab opened. Call snapshot to see page structure and find elements to interact with.")],
           { s₂ with page := some np }, t₂)

/-- The `snapshot` case: ensure a live page, advisory settle wait
(expiry swallowed), then `takeSnapshot`, returning the tree text plus
the rebuilt table. -/
def snapshotCase (d : Driver) (s : ToolState) (maxChars : Option Nat) :
    Except String ToolResult × ToolState × List DriverCall :=
  match ensureBrowser d s with
  | (.error e, s₁, t₁) => (.error e, s₁, t₁)
  | (.ok p, s₁, t₁) =>
    let t₂ := t₁ ++ [DriverCall.waitForLoadState p]
    match takeSnapshot d p maxChars s₁ with
    | (.error e, s₂, t₃) => (.error e, s₂, t₂ ++ t₃)
    | (.ok (snap, truncated), s₂, t₃) =>
      (.ok [("url", JVal.s (d.urlOf p)), ("title", JVal.s (d.titleOf p)),
            ("snapshot", JVal.s snap), ("truncated", JVal.b truncated),
            ("refCount", JVal.n s₂.currentRefs.size),
            ("refs", JVal.table s₂.currentRefs),
            ("hint", JVal.s "Use act with kind=\"click\" and ref=\"eN\" to click elements. Or navigate directly to a /url visible in the snapshot.")],
       s₂, t₂ ++ t₃)

/-- The `act` case: validate the request object, ensure a live page,
then dispatch on the sub-kind, validating kind-specific required fields
before resolving refs or calling the driver. -/
def actCase (d : Driver) (s : ToolState) (request : Option ActRequest) :
    Except String ToolResult × ToolState × List DriverCall :=
  match request with
  | none => (.ok (errorResult "request is required for act action"), s, [])
  | some req =>
    match ensureBrowser d s with
    | (.error e, s₁, t₁) => (.error e, s₁, t₁)
    | (.ok p, s₁, t₁) =>
      match req.kind with
      | .click =>
        if strFalsy req.ref then
          (.ok (errorResult "ref is required for click"), s₁, t₁)
        else
          let r := req.ref.getD ""
          let loc := resolveRefToLocator s₁.currentRefs r
          match d.clickRes loc with
          | .error e => (.error e, s₁, t₁ ++ [DriverCall.click p loc])
          | .ok _ =>
            (.ok [("ok", JVal.b true), ("clicked", JVal.s r),
                  ("hint", JVal.s "Click successful. Call snapshot to see the updated page.")],
             s₁, t₁ ++ [DriverCall.click p loc, DriverCall.waitForLoadState p])
      | .typeText =>
        if strFalsy req.ref then
          (.ok (errorResult "ref is required for type"), s₁, t₁)
        else if strFalsy req.text then
          (.ok (errorResult "text is required for type"), s₁, t₁)
        else
          let r := req.ref.getD ""
          let tx := req.text.getD ""
          let loc := resolveRefToLocator s₁.currentRefs r
          match d.fillRes loc tx with
          | .error e => (.error e, s₁, t₁ ++ [DriverCall.fill p loc tx])
          | .ok _ =>
            (.ok [("ok", JVal.b true), ("ref", JVal.s r), ("typed", JVal.s tx)],
             s₁, t₁ ++ [DriverCall.fill p loc tx])
      | .press =>
        if strFalsy req.key then
          (.ok (errorResult "key is required for press"), s₁, t₁)
        else
          let k := req.key.getD ""
          match d.pressRes k with
          | .error e => (.error e, s₁, t₁ ++ [DriverCall.keyboardPress k])
          | .ok _ =>
            (.ok [("ok", JVal.b true), ("pressed", JVal.s k)],
             s₁, t₁ ++ [DriverCall.keyboardPress k, DriverCall.waitForLoadState p])
      | .hover =>
        if strFalsy req.ref then
          (.ok (errorResult "ref is required for hover"), s₁, t₁)
        else
          let r := req.ref.getD ""
          let loc := resolveRefToLocator s₁.currentRefs r
          match d.hoverRes loc with
          | .error e => (.error e, s₁, t₁ ++ [DriverCall.hover p loc])
          | .ok _ =>
            (.ok [("ok", JVal.b true), ("hovered", JVal.s r)],
             s₁, t₁ ++ [DriverCall.hover p loc])
      | .scroll =>
        let dir := req.direction.getD .down
        let amount : Int := if dir = .down then 500 else -500
        (.ok [("ok", JVal.b true), ("scrolled", JVal.s dir.text)],
         s₁, t₁ ++ [DriverCall.mouseWheel amount, DriverCall.waitForTimeout 500])
      | .wait =>
        let waitTime := min (req.timeMs.getD 2000) 10000
        (.ok [("ok", JVal.b true), ("waited", JVal.n waitTime)],
         s₁, t₁ ++ [DriverCall.waitForTimeout waitTime])

/-- The `read` case: ensure a live page, advisory settle wait, then
extract the visible text of the main content region (falling back to
the body) via an in-page evaluation. -/
def readCase (d : Driver) (s : ToolState) :
    Except String ToolResult × ToolState × List DriverCall :=
  match ensureBrowser d s with
  | (.error e, s₁, t₁) => (.error e, s₁, t₁)
  | (.ok p, s₁, t₁) =>
    let t₂ := t₁ ++ [DriverCall.waitForLoadState p, DriverCall.evaluateText p]
    match d.readRes p with
    | .error e => (.error e, s₁, t₂)
    | .ok content =>
      (.ok [("url", JVal.s (d.urlOf p)), ("title", JVal.s (d.titleOf p)),
            ("content", JVal.s content)],
       s₁, t₂)

/-- The `close` case: `closeBrowser`, then a success payload. -/
def closeCase (d : Driver) (s : ToolState) :
    Except String ToolResult × ToolState × List DriverCall :=
  match closeBrowser d s with
  | (.error e, s₁, t₁) => (.error e, s₁, t₁)
  | (.ok _, s₁, t₁) =>
    (.ok [("ok", JVal.b true), ("message", JVal.s "Browser closed")], s₁, t₁)

/-- The body of the `switch (action)` inside the try block. -/
def runAction (d : Driver) (s : ToolState) (action : Action) (url : Option String)
    (maxChars : Option Nat) (request : Option ActRequest) :
    Except String ToolResult × ToolState × List DriverCall :=
  match action with
  | .navigate => navigateCase d s url
  | .openTab => openCase d s url
  | .snapshot => snapshotCase d s maxChars
  | .act => actCase d s request
  | .read => readCase d s
  | .close => closeCase d s

/-- The function `browserTool.func`: the try/catch boundary. Any rejection escaping
the action body is converted into a structured error payload whose
message carries the `[Browser (Playwright)] ` prefix; nothing propagates
as an unhandled fault. -/
def browserFunc (d : Driver) (s : ToolState) (action : Action) (url : Option String)
    (maxChars : Option Nat) (request : Option ActRequest) :
    ToolResult × ToolState × List DriverCall :=
  match runAction d s action url maxChars request with
  | (.ok r, s', t) => (r, s', t)
  | (.error e, s', t) => (errorResult ("[Browser (Playwright)] " ++ e), s', t)

/-- Well-formedness of ref keys: `e` followed by one or more digits. -/
def isRefKey (k : String) : Bool :=
  match k.data with
  | 'e' :: ds => !ds.isEmpty && ds.all isDigitC
  | _ => false

/-- The entry contributed to ref `r` by the text, later lines taking
precedence over earlier ones: `none` when no line defines `r`. This is
the specification-level reading of "later occurrences overwrite". -/
def lastDefFrom (r : String) : List (List Char) → Option RefEntry
  | [] => none
  | l :: ls =>
    match lastDefFrom r ls with
    | some e => some e
    | none =>
      match lineRef l with
      | some (k, e) => if k = r then some e else none
      | none => none

/-- A driver whose every call succeeds, serving a fixed snapshot text.
Used to instantiate theorems at concrete inputs. -/
def okDriver (snap : String) : Driver :=
  { launchRes := .ok ()
    newContextRes := .ok ()
    newPageRes := .ok ()
    gotoRes := fun _ => .ok ()
    urlOf := fun _ => "https://example.test/"
    titleOf := fun _ => "Example"
    hasSnapshotForAI := true
    snapshotForAIRes := fun _ => .ok (some snap)
    ariaSnapshotRes := fun _ => .ok snap
    clickRes := fun _ => .ok ()
    fillRes := fun _ _ => .ok ()
    hoverRes := fun _ => .ok ()
    pressRes := fun _ => .ok ()
    readRes := fun _ => .ok "content"
    closeRes := .ok () }

/-- A driver whose launch call rejects. -/
def failingDriver : Driver :=
  { okDriver "" with launchRes := .error "boom" }

/-! ## The module-state invariant -/

/-- The implicit invariant of the module-level state: an active page
exists only when a browser exists, and with no browser the ref table is
empty. -/
def StateInv (s : ToolState) : Prop :=
  (s.page.isSome = true → s.browser = true) ∧
  (s.browser = false → s.currentRefs = ([] : List (String × RefEntry)))

/-- One caller script step: a driver behavior together with the action
arguments of one tool invocation. -/
def runScript :
    ToolState →
      List (Driver × Action × Option String × Option Nat × Option ActRequest) →
        ToolState
  | s, [] => s
  | s, (d, a, u, m, req) :: rest => runScript (browserFunc d s a u m req).2.1 rest

/-! ## Lemmas about the ref table -/

theorem RefTable.get_set_self (t : RefTable) (k : String) (v : RefEntry) :
    (t.set k v).get k = some v := by
  induction t with
  | nil => simp [RefTable.set, RefTable.get]
  | cons a t ih =>
    obtain ⟨k', v'⟩ := a
    by_cases h : k' = k <;> simp [RefTable.set, RefTable.get, h, ih]

theorem RefTable.get_set_ne (t : RefTable) (k k' : String) (v : RefEntry)
    (h : k' ≠ k) : (t.set k v).get k' = t.get k' := by
  induction t with
  | nil => simp [RefTable.set, RefTable.get, Ne.symm h]
  | cons a t ih =>
    obtain ⟨k₀, v₀⟩ := a
    by_cases h₀ : k₀ = k
    · subst h₀
      simp [RefTable.set, RefTable.get, Ne.symm h]
    · by_cases h₁ : k₀ = k' <;>
        simp [RefTable.set, RefTable.get, h₀, h₁, h, ih]

theorem RefTable.mem_keys_set (t : RefTable) (k : String) (v : RefEntry)
    (k' : String) : k' ∈ (t.set k v).keys ↔ k' = k ∨ k' ∈ t.keys := by
  induction t with
  | nil => simp [RefTable.set, RefTable.keys]
  | cons a t ih =>
    obtain ⟨k₀, v₀⟩ := a
    by_cases h₀ : k₀ = k
    · subst h₀
      have hset : RefTable.set ((k₀, v₀) :: t) k₀ v = (k₀, v) :: t := by
        simp [RefTable.set]
      rw [hset]
      simp [RefTable.keys]
    · simp only [RefTable.set, if_neg h₀]
      simp only [RefTable.keys, List.map_cons, List.mem_cons] at ih ⊢
      rw [ih]
      tauto

theorem RefTable.nodup_keys_set (t : RefTable) (k : String) (v : RefEntry)
    (h : t.keys.Nodup) : (t.set k v).keys.Nodup := by
  induction t with
  | nil => simp [RefTable.set, RefTable.keys]
  | cons a t ih =>
    obtain ⟨k₀, v₀⟩ := a
    simp only [RefTable.keys, List.map_cons, List.nodup_cons] at h
    by_cases h₀ : k₀ = k
    · subst h₀
      have hset : RefTable.set ((k₀, v₀) :: t) k₀ v = (k₀, v) :: t := by
        simp [RefTable.set]
      rw [hset]
      simp only [RefTable.keys, List.map_cons, List.nodup_cons]
      exact ⟨h.1, h.2⟩
    · simp only [RefTable.set, if_neg h₀]
      simp only [RefTable.keys, List.map_cons, List.nodup_cons]
      refine ⟨fun hmem => ?_, ih h.2⟩
      rcases (RefTable.mem_keys_set t k v k₀).1 hmem with h₁ | h₁
      · exact h₀ h₁
      · exact h.1 h₁

/-! ## Lemmas about the snapshot parser -/

theorem take_length_append (l₁ l₂ : List Char) :
    (l₁ ++ l₂).take l₁.length = l₁ := by
  induction l₁ with
  | nil => simp
  | cons a l ih => simp [ih]

theorem takeWhile_all {p : Char → Bool} (l : List Char) :
    ((l.takeWhile p).all p) = true := by
  induction l with
  | nil => simp
  | cons c l ih =>
    by_cases h : p c
    · simp [List.takeWhile_cons, h, ih]
    · simp [List.takeWhile_cons, h]

theorem tryTag_digits {tag cs ds} (h : tryTag tag cs = some ds) :
    ds ≠ [] ∧ ds.all isDigitC = true := by
  unfold tryTag at h
  by_cases hp : tag.isPrefixOf cs
  · rw [if_pos hp] at h
    by_cases he : ((cs.drop tag.length).takeWhile isDigitC).isEmpty
    · rw [if_pos he] at h
      simp at h
    · rw [if_neg he] at h
      split at h
      · cases h
        refine ⟨fun hnil => ?_, takeWhile_all _⟩
        rw [hnil] at he
        simp at he
      · simp at h
  · rw [if_neg hp] at h
    simp at h

theorem scanTag_digits {tag : List Char} {cs ds : List Char}
    (h : scanTag tag cs = some ds) : ds ≠ [] ∧ ds.all isDigitC = true := by
  induction cs with
  | nil => simp [scanTag] at h
  | cons c rest ih =>
    unfold scanTag at h
    split at h
    · cases h
      exact tryTag_digits (by assumption)
    · exact ih h

theorem findRefId_isRefKey {cs : List Char} {r : String}
    (h : findRefId cs = some r) : isRefKey r = true := by
  unfold findRefId at h
  cases hscan : scanTag "[ref=e".data cs with
  | none => simp [hscan] at h
  | some ds =>
    simp [hscan] at h
    obtain ⟨hne, hall⟩ := scanTag_digits hscan
    subst h
    simp [isRefKey, String.mk, hall]
    intro habs
    exact hne habs

theorem findQuoted_ne_empty {cs : List Char} {n : String}
    (h : findQuoted cs = some n) : n.data ≠ [] := by
  induction cs with
  | nil => simp [findQuoted] at h
  | cons c rest ih =>
    unfold findQuoted at h
    by_cases hc : c = '"'
    · rw [if_pos hc] at h
      split at h
      · by_cases he : (rest.takeWhile (fun x => x ≠ '"')).isEmpty
        · rw [if_pos he] at h
          exact ih h
        · rw [if_neg he] at h
          cases h
          simpa using he
      · exact ih h
    · rw [if_neg hc] at h
      exact ih h

theorem get_foldl_insertLine (lines : List (List Char)) (t : RefTable)
    (r : String) :
    (lines.foldl insertLine t).get r =
      match lastDefFrom r lines with
      | some e => some e
      | none => t.get r := by
  induction lines generalizing t with
  | nil => simp [lastDefFrom]
  | cons l ls ih =>
    rw [List.foldl_cons, ih]
    cases hls : lastDefFrom r ls with
    | some e => simp [lastDefFrom, hls]
    | none =>
      simp only [lastDefFrom, hls]
      cases hl : lineRef l with
      | none => simp [insertLine, hl]
      | some p =>
        obtain ⟨k, e⟩ := p
        by_cases hk : k = r
        · subst hk
          simp [insertLine, hl, RefTable.get_set_self]
        · simp [insertLine, hl, hk, RefTable.get_set_ne t k r e (Ne.symm hk)]

theorem keys_foldl_nodup (lines : List (List Char)) (t : RefTable)
    (h : t.keys.Nodup) : ((lines.foldl insertLine t).keys).Nodup := by
  induction lines generalizing t with
  | nil => exact h
  | cons l ls ih =>
    rw [List.foldl_cons]
    apply ih
    unfold insertLine
    cases hl : lineRef l with
    | none => exact h
    | some p => exact RefTable.nodup_keys_set t p.1 p.2 h

theorem lineRef_isRefKey {l : List Char} {r : String} {e : RefEntry}
    (h : lineRef l = some (r, e)) : isRefKey r = true := by
  unfold lineRef at h
  cases hf : findRefId l with
  | none => rw [hf] at h; exact absurd h (by simp)
  | some r' =>
    rw [hf] at h
    cases h
    exact findRefId_isRefKey hf

theorem keys_foldl_refKey (lines : List (List Char)) (t : RefTable)
    (h : ∀ k ∈ t.keys, isRefKey k = true) :
    ∀ k ∈ (lines.foldl insertLine t).keys, isRefKey k = true := by
  induction lines generalizing t with
  | nil => exact h
  | cons l ls ih =>
    rw [List.foldl_cons]
    apply ih
    unfold insertLine
    cases hl : lineRef l with
    | none => exact h
    | some p =>
      intro k hk
      rcases (RefTable.mem_keys_set t p.1 p.2 k).1 hk with h₁ | h₁
      · subst h₁
        exact lineRef_isRefKey (l := l) (e := p.2) (by simpa using hl)
      · exact h k h₁

/-- C3: a line carrying a `[ref=eN]` marker parses to an entry whose
role is the first word token after the `- ` bullet (defaulting to
`"generic"` when absent), whose name is the first double-quoted
substring (absent otherwise), and whose nth is the `[nth=d]` integer
when present; in particular `  - button "Search" [ref=e7] [nth=2]`
yields `e7 ↦ {role := button, name := Search, nth := 2}`. -/
theorem c3_parser_grammar :
    parseRefsFromSnapshot "  - button \"Search\" [ref=e7] [nth=2]" =
      [("e7", { role := "button", name := some "Search", nth := some 2 })] ∧
    (parseRefsFromSnapshot "  - [ref=e9]").get "e9" =
      some { role := "generic", name := none, nth := none } ∧
    (parseRefsFromSnapshot "- button [ref=e2]").get "e2" =
      some { role := "button", name := none, nth := none } ∧
    (parseRefsFromSnapshot "- link \"A\" \"B\" [ref=e4]").get "e4" =
      some { role := "link", name := some "A", nth := none } := by
  exact ⟨by decide, by decide, by decide, by decide⟩

/-- C6: the table built by one capture maps each ref id to the entry of
the last line defining it (later occurrences overwrite earlier ones),
its keys are unique, and every key is `e` followed by one or more
digits; on the concrete duplicate-`e5` snapshot the later line's
attributes are the ones retained. -/
theorem c6_duplicate_ref_last_wins :
    (∀ (snapshot r : String),
       (parseRefsFromSnapshot snapshot).get r =
         lastDefFrom r (splitLines snapshot.data)) ∧
    (∀ snapshot : String, ((parseRefsFromSnapshot snapshot).keys).Nodup) ∧
    (∀ snapshot : String,
       ∀ k ∈ (parseRefsFromSnapshot snapshot).keys, isRefKey k = true) ∧
    (parseRefsFromSnapshot "- button \"A\" [ref=e5]\n- link \"B\" [ref=e5] [nth=1]").get "e5" =
      some { role := "link", name := some "B", nth := some 1 } := by
  refine ⟨fun snapshot r => ?_, fun snapshot => ?_, fun snapshot => ?_, by decide⟩
  · rw [parseRefsFromSnapshot, get_foldl_insertLine]
    cases lastDefFrom r (splitLines snapshot.data) <;> simp [RefTable.get]
  · exact keys_foldl_nodup _ _ (by simp [RefTable.keys])
  · exact keys_foldl_refKey _ _ (by simp [RefTable.keys])

/-- When the acquisition succeeds with text `text`, `takeSnapshot`
reaches the truncation step with exactly that text. -/
theorem takeSnapshot_acq (d : Driver) (pg : Nat) (maxChars : Option Nat)
    (s : ToolState) (text : String)
    (hacq : (d.hasSnapshotForAI = true ∧ d.snapshotForAIRes pg = .ok (some text)) ∨
            (d.hasSnapshotForAI = false ∧ d.ariaSnapshotRes pg = .ok text)) :
    takeSnapshot d pg maxChars s =
      (if text.data.length > maxChars.getD 50000 then
        .ok (String.mk (text.data.take (maxChars.getD 50000)) ++ truncationMarker, true)
      else .ok (text, false),
       { s with currentRefs := parseRefsFromSnapshot text },
       if d.hasSnapshotForAI then [DriverCall.snapshotForAI pg]
       else [DriverCall.ariaSnapshot pg]) := by
  rcases hacq with ⟨hb, hres⟩ | ⟨hb, hres⟩ <;>
    · simp only [takeSnapshot, hb, hres, if_true, if_false, Bool.false_eq_true,
        Option.getD_some]
      split <;> rfl

/-- C2: with `K = maxChars ?? 50000`, a captured tree text of length
`L ≤ K` is returned unchanged with `truncated = false`; a text of
length `L > K` is returned as its first `K` characters followed by the
literal truncation marker (total length `K + |marker|`, first `K`
characters preserved) with `truncated = true`. -/
theorem c2_truncation_boundary (d : Driver) (pg : Nat) (maxChars : Option Nat)
    (s : ToolState) (text : String)
    (hacq : (d.hasSnapshotForAI = true ∧ d.snapshotForAIRes pg = .ok (some text)) ∨
            (d.hasSnapshotForAI = false ∧ d.ariaSnapshotRes pg = .ok text)) :
    (text.data.length ≤ maxChars.getD 50000 →
       (takeSnapshot d pg maxChars s).1 = .ok (text, false)) ∧
    (maxChars.getD 50000 < text.data.length →
       ∃ out, (takeSnapshot d pg maxChars s).1 = .ok (out, true) ∧
         out.data = text.data.take (maxChars.getD 50000) ++ truncationMarker.data ∧
         out.data.length = maxChars.getD 50000 + truncationMarker.data.length ∧
         out.data.take (maxChars.getD 50000) = text.data.take (maxChars.getD 50000)) := by
  rw [takeSnapshot_acq d pg maxChars s text hacq]
  constructor
  · intro hle
    rw [if_neg (by omega)]
  · intro hlt
    rw [if_pos hlt]
    have hlen : (text.data.take (maxChars.getD 50000)).length = maxChars.getD 50000 := by
      rw [List.length_take]
      omega
    refine ⟨_, rfl, ?_, ?_, ?_⟩
    · simp [String.mk]
    · simp [String.mk, hlen]
    · show (String.mk (text.data.take (maxChars.getD 50000) ++ truncationMarker.data)).data.take _ = _
      simp only [String.mk]
      have hta := take_length_append (text.data.take (maxChars.getD 50000))
        truncationMarker.data
      rw [hlen] at hta
      exact hta

/-- Witness for C2 at a concrete over-long input: text `"abcdef"` with
limit 3 truncates to `"abc" ++ marker`. -/
theorem c2_truncation_boundary_witness :
    ∃ out, (takeSnapshot (okDriver "abcdef") 0 (some 3) initialState).1 = .ok (out, true) ∧
      out.data = "abcdef".data.take 3 ++ truncationMarker.data ∧
      out.data.length = 3 + truncationMarker.data.length ∧
      out.data.take 3 = "abcdef".data.take 3 :=
  (c2_truncation_boundary (okDriver "abcdef") 0 (some 3) initialState "abcdef"
    (Or.inl ⟨rfl, rfl⟩)).2 (by decide)

/-- C1: a successful capture replaces `currentRefs` with exactly the
table parsed from the new text — regardless of what an earlier snapshot
had stored — and any ref absent from that new table (in particular one
present only in the earlier snapshot) resolves to the raw `aria-ref`
fallback locator, never to stale role/name data. -/
theorem c1_table_replacement (d : Driver) (pg : Nat) (maxChars : Option Nat)
    (s : ToolState) (s1text s2text : String) (r : String)
    (hacq : (d.hasSnapshotForAI = true ∧ d.snapshotForAIRes pg = .ok (some s2text)) ∨
            (d.hasSnapshotForAI = false ∧ d.ariaSnapshotRes pg = .ok s2text))
    (_hpresent : (parseRefsFromSnapshot s1text).get r ≠ none)
    (habsent : (parseRefsFromSnapshot s2text).get r = none) :
    (takeSnapshot d pg maxChars
        { s with currentRefs := parseRefsFromSnapshot s1text }).2.1.currentRefs =
      parseRefsFromSnapshot s2text ∧
    resolveRefToLocator
        (takeSnapshot d pg maxChars
          { s with currentRefs := parseRefsFromSnapshot s1text }).2.1.currentRefs r =
      Locator.ariaRef ("aria-ref=" ++ r) := by
  have hstate :
      (takeSnapshot d pg maxChars
        { s with currentRefs := parseRefsFromSnapshot s1text }).2.1.currentRefs =
        parseRefsFromSnapshot s2text := by
    rw [takeSnapshot_acq d pg maxChars _ s2text hacq]
  refine ⟨hstate, ?_⟩
  rw [hstate]
  simp [resolveRefToLocator, habsent]

/-- Witness for C1: after S1 = `- button "A" [ref=e5]` and
S2 = `- link "B" [ref=e2]`, ref `e5` resolves via the raw-id fallback. -/
theorem c1_table_replacement_witness :
    (takeSnapshot (okDriver "- link \"B\" [ref=e2]") 0 none
        { initialState with currentRefs := parseRefsFromSnapshot "- button \"A\" [ref=e5]" }).2.1.currentRefs =
      parseRefsFromSnapshot "- link \"B\" [ref=e2]" ∧
    resolveRefToLocator
        (takeSnapshot (okDriver "- link \"B\" [ref=e2]") 0 none
          { initialState with currentRefs := parseRefsFromSnapshot "- button \"A\" [ref=e5]" }).2.1.currentRefs "e5" =
      Locator.ariaRef ("aria-ref=" ++ "e5") :=
  c1_table_replacement (okDriver "- link \"B\" [ref=e2]") 0 none initialState
    "- button \"A\" [ref=e5]" "- link \"B\" [ref=e2]" "e5"
    (Or.inl ⟨rfl, rfl⟩) (by decide) (by decide)

/-- C4: a ref present in the table resolves to a role-based locator
built from the stored role, carrying the stored name with the
exact-match flag set exactly when a name is stored; over any candidate
list, a stored `nth = k > 0` selects the zero-based k-th same-role/name
match, while `nth = 0` and an absent `nth` both select the first
match. -/
theorem c4_nth_semantics (t : RefTable) (r : String) (e : RefEntry)
    (es : List Element) (hget : t.get r = some e)
    (hname : ∀ n, e.name = some n → n.data ≠ []) :
    (∃ idx, resolveRefToLocator t r =
        Locator.byRole e.role e.name e.name.isSome idx) ∧
    ((e.nth = none ∨ e.nth = some 0) →
       locatorSelect es (resolveRefToLocator t r) =
         (roleCandidates es e.role e.name).get? 0) ∧
    (∀ k, e.nth = some k → 0 < k →
       locatorSelect es (resolveRefToLocator t r) =
         (roleCandidates es e.role e.name).get? k) := by
  have hn :
      (match e.name with
       | some n => if n.data.isEmpty then none else some n
       | none => none) = e.name := by
    cases hne : e.name with
    | none => rfl
    | some n =>
      cases hd : n.data with
      | nil => exact absurd hd (hname n hne)
      | cons a l => simp [hd]
  simp only [resolveRefToLocator, hget, hn]
  refine ⟨⟨_, rfl⟩, ?_, ?_⟩
  · rintro (hnth | hnth) <;>
      simp [hnth, locatorSelect, byRoleSelect]
  · intro k hnth hk
    simp [hnth, hk, locatorSelect, byRoleSelect]

/-- Witness for C4: with the stored entry
`e7 ↦ {role := button, name := Search, nth := 2}` and five candidates of
which the buttons named "Search" are ids 0, 2 and 4, resolution selects
id 4 (the third, zero-indexed, match). -/
theorem c4_nth_semantics_witness :
    locatorSelect
        [⟨0, "button", "Search"⟩, ⟨1, "link", "Search"⟩, ⟨2, "button", "Search"⟩,
         ⟨3, "button", "Other"⟩, ⟨4, "button", "Search"⟩]
        (resolveRefToLocator
          [("e7", { role := "button", name := some "Search", nth := some 2 })] "e7") =
      (roleCandidates
        [⟨0, "button", "Search"⟩, ⟨1, "link", "Search"⟩, ⟨2, "button", "Search"⟩,
         ⟨3, "button", "Other"⟩, ⟨4, "button", "Search"⟩] "button" (some "Search")).get? 2 ∧
    (roleCandidates
        [⟨0, "button", "Search"⟩, ⟨1, "link", "Search"⟩, ⟨2, "button", "Search"⟩,
         ⟨3, "button", "Other"⟩, ⟨4, "button", "Search"⟩] "button" (some "Search")).get? 2 =
      some ⟨4, "button", "Search"⟩ :=
  ⟨(c4_nth_semantics
      [("e7", { role := "button", name := some "Search", nth := some 2 })] "e7"
      { role := "button", name := some "Search", nth := some 2 }
      [⟨0, "button", "Search"⟩, ⟨1, "link", "Search"⟩, ⟨2, "button", "Search"⟩,
       ⟨3, "button", "Other"⟩, ⟨4, "button", "Search"⟩]
      (by decide) (fun n hn => by cases hn; decide)).2.2 2 rfl (by decide),
   by decide⟩

/-- Every driver call `ensureBrowser` can perform is an initialization
call (browser launch, context or page creation) — never an element
resolution or interaction. -/
theorem ensureBrowser_calls (d : Driver) (s : ToolState) :
    ∀ c ∈ (ensureBrowser d s).2.2,
      c = DriverCall.launch ∨ c = DriverCall.newContext ∨
        ∃ ctx, c = DriverCall.newPage ctx := by
  intro c hc
  unfold ensureBrowser at hc
  by_cases hb : s.browser <;>
  cases hl : d.launchRes <;>
  cases hp : s.page <;>
  cases hcx : d.newContextRes <;>
  cases hn : d.newPageRes <;>
  simp [hb, hl, hp, hcx, hn] at hc <;>
  aesop

/-- C7: `close` on an already-closed session (no browser) returns the
success payload with the state untouched and no driver call; a first
`close` on a live session closes the browser, clears the active-page
pointer and the ref table. -/
theorem c7_idempotent_close (d : Driver) (s : ToolState) :
    (s.browser = false →
       browserFunc d s .close none none none =
         ([("ok", JVal.b true), ("message", JVal.s "Browser closed")], s, [])) ∧
    (s.browser = true → d.closeRes = .ok () →
       browserFunc d s .close none none none =
         ([("ok", JVal.b true), ("message", JVal.s "Browser closed")],
          { s with browser := false, pages := [], page := none
                   currentRefs := ([] : List (String × RefEntry)) },
          [DriverCall.browserClose])) := by
  constructor
  · intro hb
    simp [browserFunc, runAction, closeCase, closeBrowser, hb]
  · intro hb hres
    simp [browserFunc, runAction, closeCase, closeBrowser, hb, hres]

/-- Witness for C7: a second close after a successful close is a no-op
success, and the first close resets the live state. -/
theorem c7_idempotent_close_witness :
    (browserFunc (okDriver "") initialState .close none none none =
       ([("ok", JVal.b true), ("message", JVal.s "Browser closed")], initialState, [])) ∧
    (browserFunc (okDriver "")
        { browser := true, pages := [(1, 0)], page := some 1
          currentRefs := [("e1", { role := "link", name := none, nth := none })]
          fresh := 2 } .close none none none =
       ([("ok", JVal.b true), ("message", JVal.s "Browser closed")],
        { browser := false, pages := [], page := none
          currentRefs := ([] : List (String × RefEntry)), fresh := 2 },
        [DriverCall.browserClose])) :=
  ⟨(c7_idempotent_close (okDriver "") initialState).1 rfl,
   (c7_idempotent_close (okDriver "")
      { browser := true, pages := [(1, 0)], page := some 1
        currentRefs := [("e1", { role := "link", name := none, nth := none })]
        fresh := 2 }).2 rfl rfl⟩

/-- C5 counterexample: from the uninitialized state, `act` with kind
`click` and no `ref` does return the MissingParameter failure, but the
driver has already been called: `ensureBrowser` runs before the `ref`
check and launches the browser, so the call trace is nonempty. -/
theorem c5_counterexample :
    (browserFunc (okDriver "") initialState .act none none
        (some { kind := ActKind.click })).1 =
      errorResult "ref is required for click" ∧
    (browserFunc (okDriver "") initialState .act none none
        (some { kind := ActKind.click })).2.2 =
      [DriverCall.launch, DriverCall.newContext, DriverCall.newPage 0] ∧
    (browserFunc (okDriver "") initialState .act none none
        (some { kind := ActKind.click })).2.2 ≠ [] := by
  exact ⟨by decide, by decide, by decide⟩

/-- C5 (amended): each missing required field of the original claim —
`click` without `ref`, `type` without `ref` or without `text`, `press`
without `key`, `navigate` or `open` without `url` — yields a
MissingParameter structured failure with no element resolution or
interaction driver call; but for the act sub-kinds the check runs only
after `ensureBrowser`, whose initialization calls (launch, context and
page creation on a cold session) do happen first, while `navigate`/
`open` URL validation is immediate, with no driver call at all. -/
theorem c5_missing_parameter (d : Driver) (s : ToolState) :
    (browserFunc d s .navigate none none none =
       (errorResult "url is required for navigate action", s, [])) ∧
    (browserFunc d s .openTab none none none =
       (errorResult "url is required for open action", s, [])) ∧
    (browserFunc d s .act none none none =
       (errorResult "request is required for act action", s, [])) ∧
    (∀ p s₁ t₁, ensureBrowser d s = (.ok p, s₁, t₁) →
       (browserFunc d s .act none none (some { kind := ActKind.click }) =
          (errorResult "ref is required for click", s₁, t₁)) ∧
       (browserFunc d s .act none none (some { kind := ActKind.typeText }) =
          (errorResult "ref is required for type", s₁, t₁)) ∧
       (browserFunc d s .act none none
            (some { kind := ActKind.typeText, ref := some "e1" }) =
          (errorResult "text is required for type", s₁, t₁)) ∧
       (browserFunc d s .act none none (some { kind := ActKind.press }) =
          (errorResult "key is required for press", s₁, t₁)) ∧
       (∀ c ∈ t₁, c = DriverCall.launch ∨ c = DriverCall.newContext ∨
          ∃ ctx, c = DriverCall.newPage ctx)) := by
  refine ⟨?_, ?_, ?_, fun p s₁ t₁ hens => ⟨?_, ?_, ?_, ?_, ?_⟩⟩
  · simp [browserFunc, runAction, navigateCase, strFalsy]
  · simp [browserFunc, runAction, openCase, strFalsy]
  · simp [browserFunc, runAction, actCase]
  · simp [browserFunc, runAction, actCase, hens, strFalsy]
  · simp [browserFunc, runAction, actCase, hens, strFalsy]
  · simp [browserFunc, runAction, actCase, hens, strFalsy]
  · simp [browserFunc, runAction, actCase, hens, strFalsy]
  · have := ensureBrowser_calls d s
    rw [hens] at this
    exact this

/-- Witness for C5 (amended): on a cold session the click validation
failure arrives after exactly the three initialization calls. -/
theorem c5_missing_parameter_witness :
    browserFunc (okDriver "") initialState .act none none
        (some { kind := ActKind.click }) =
      (errorResult "ref is required for click",
       { browser := true, pages := [(1, 0)], page := some 1
         currentRefs := ([] : List (String × RefEntry)), fresh := 2 },
       [DriverCall.launch, DriverCall.newContext, DriverCall.newPage 0]) :=
  ((c5_missing_parameter (okDriver "") initialState).2.2.2 1
    { browser := true, pages := [(1, 0)], page := some 1
      currentRefs := ([] : List (String × RefEntry)), fresh := 2 }
    [DriverCall.launch, DriverCall.newContext, DriverCall.newPage 0]
    rfl).1

/-- C8: any failure escaping an action body is converted by the single
outer boundary into a structured error payload whose message carries
the `[Browser (Playwright)] ` prefix; no fault propagates past the tool
boundary. -/
theorem c8_error_boundary (d : Driver) (s : ToolState) (action : Action)
    (url : Option String) (maxChars : Option Nat) (request : Option ActRequest)
    (e : String) (s' : ToolState) (t : List DriverCall)
    (h : runAction d s action url maxChars request = (.error e, s', t)) :
    browserFunc d s action url maxChars request =
      (errorResult ("[Browser (Playwright)] " ++ e), s', t) := by
  unfold browserFunc
  rw [h]

/-- Witness for C8: a rejected browser launch during `navigate` surfaces
as a prefixed structured error. -/
theorem c8_error_boundary_witness :
    browserFunc failingDriver initialState .navigate
        (some "https://example.test") none none =
      (errorResult ("[Browser (Playwright)] " ++ "boom"), initialState,
       [DriverCall.launch]) :=
  c8_error_boundary failingDriver initialState .navigate
    (some "https://example.test") none none "boom" initialState
    [DriverCall.launch] rfl

/-- C9: starting from the uninitialized state, `navigate(url1)` creates
context 0 with page 1 and makes it active; a following `open(url2)`
creates page 2 in the same context 0 and moves the active pointer to it,
while page 1 stays in the session's open pages (it is not closed). -/
theorem c9_open_preserves_pages (d : Driver) (url1 url2 : String)
    (hl : d.launchRes = .ok ()) (hc : d.newContextRes = .ok ())
    (hp : d.newPageRes = .ok ()) (h1 : d.gotoRes url1 = .ok ())
    (h2 : d.gotoRes url2 = .ok ())
    (hu1 : strFalsy (some url1) = false) (hu2 : strFalsy (some url2) = false) :
    (browserFunc d initialState .navigate (some url1) none none).2.1.page = some 1 ∧
    (browserFunc d
        (browserFunc d initialState .navigate (some url1) none none).2.1
        .openTab (some url2) none none).2.1.page = some 2 ∧
    (browserFunc d
        (browserFunc d initialState .navigate (some url1) none none).2.1
        .openTab (some url2) none none).2.1.browser = true ∧
    (browserFunc d
        (browserFunc d initialState .navigate (some url1) none none).2.1
        .openTab (some url2) none none).2.1.pages = [(1, 0), (2, 0)] ∧
    (1, 0) ∈ (browserFunc d
        (browserFunc d initialState .navigate (some url1) none none).2.1
        .openTab (some url2) none none).2.1.pages := by
  have hs1 : (browserFunc d initialState .navigate (some url1) none none).2.1 =
      { browser := true, pages := [(1, 0)], page := some 1
        currentRefs := ([] : List (String × RefEntry)), fresh := 2 } := by
    simp [browserFunc, runAction, navigateCase, ensureBrowser, initialState,
      hu1, hl, hc, hp, h1]
  rw [hs1]
  have hs2 : (browserFunc d
      { browser := true, pages := [(1, 0)], page := some 1
        currentRefs := ([] : List (String × RefEntry)), fresh := 2 }
      .openTab (some url2) none none).2.1 =
      { browser := true, pages := [(1, 0), (2, 0)], page := some 2
        currentRefs := ([] : List (String × RefEntry)), fresh := 3 } := by
    simp [browserFunc, runAction, openCase, ensureBrowser, ToolState.ctxOf,
      hu2, hp, h2]
  rw [hs2]
  exact ⟨rfl, rfl, rfl, rfl, by simp⟩

/-- Witness for C9 with the all-ok driver and two concrete URLs. -/
theorem c9_open_preserves_pages_witness :
    (browserFunc (okDriver "") initialState .navigate
        (some "https://a.test") none none).2.1.page = some 1 ∧
    (browserFunc (okDriver "")
        (browserFunc (okDriver "") initialState .navigate
          (some "https://a.test") none none).2.1
        .openTab (some "https://b.test") none none).2.1.page = some 2 ∧
    (browserFunc (okDriver "")
        (browserFunc (okDriver "") initialState .navigate
          (some "https://a.test") none none).2.1
        .openTab (some "https://b.test") none none).2.1.browser = true ∧
    (browserFunc (okDriver "")
        (browserFunc (okDriver "") initialState .navigate
          (some "https://a.test") none none).2.1
        .openTab (some "https://b.test") none none).2.1.pages = [(1, 0), (2, 0)] ∧
    (1, 0) ∈ (browserFunc (okDriver "")
        (browserFunc (okDriver "") initialState .navigate
          (some "https://a.test") none none).2.1
        .openTab (some "https://b.test") none none).2.1.pages :=
  c9_open_preserves_pages (okDriver "") "https://a.test" "https://b.test"
    rfl rfl rfl rfl rfl (by decide) (by decide)

theorem inv_of_browser_true {s : ToolState} (hb : s.browser = true) :
    StateInv s :=
  ⟨fun _ => hb, fun hf => by rw [hb] at hf; cases hf⟩

theorem ensureBrowser_ok_browser {d : Driver} {s : ToolState} {p : Nat}
    {s₁ : ToolState} {t₁ : List DriverCall}
    (h : ensureBrowser d s = (.ok p, s₁, t₁)) :
    s₁.browser = true ∧ s₁.page = some p := by
  unfold ensureBrowser at h
  by_cases hb : s.browser <;>
  cases hl : d.launchRes <;>
  cases hp : s.page <;>
  cases hcx : d.newContextRes <;>
  cases hn : d.newPageRes <;>
  simp [hb, hl, hp, hcx, hn] at h <;>
  aesop

theorem ensureBrowser_state (d : Driver) (s : ToolState) :
    (ensureBrowser d s).2.1 = s ∨
    (ensureBrowser d s).2.1 = { s with browser := true } ∨
    (∃ pg ctx, (ensureBrowser d s).2.1 =
      { s with browser := true, pages := s.pages ++ [(pg, ctx)]
               page := some pg, fresh := s.fresh + 2 }) := by
  unfold ensureBrowser
  by_cases hb : s.browser <;>
  cases hl : d.launchRes <;>
  cases hp : s.page <;>
  cases hcx : d.newContextRes <;>
  cases hn : d.newPageRes <;>
  simp [hb, hl, hp, hcx, hn]

theorem inv_ensure (d : Driver) (s : ToolState) (h : StateInv s) :
    StateInv (ensureBrowser d s).2.1 := by
  rcases ensureBrowser_state d s with he | he | ⟨pg, ctx, he⟩ <;> rw [he]
  · exact h
  · exact inv_of_browser_true rfl
  · exact inv_of_browser_true rfl

theorem takeSnapshot_browser_page (d : Driver) (pg : Nat)
    (mc : Option Nat) (s : ToolState) :
    (takeSnapshot d pg mc s).2.1.browser = s.browser ∧
    (takeSnapshot d pg mc s).2.1.page = s.page := by
  unfold takeSnapshot
  by_cases hs : d.hasSnapshotForAI <;>
  [cases hres : d.snapshotForAIRes pg; cases hres : d.ariaSnapshotRes pg] <;>
  simp [hs, hres] <;>
  (try split) <;> simp

theorem navigateCase_state (d : Driver) (s : ToolState) (url : Option String) :
    (navigateCase d s url).2.1 = s ∨
    (navigateCase d s url).2.1 = (ensureBrowser d s).2.1 := by
  unfold navigateCase
  by_cases hu : strFalsy url = true
  · simp [hu]
  · simp only [hu, if_false, Bool.false_eq_true]
    rcases hens : ensureBrowser d s with ⟨r, s₁, t₁⟩
    cases r with
    | error e => right; rfl
    | ok p =>
      cases hg : d.gotoRes (url.getD "") <;> exact Or.inr rfl

theorem readCase_state (d : Driver) (s : ToolState) :
    (readCase d s).2.1 = (ensureBrowser d s).2.1 := by
  unfold readCase
  rcases hens : ensureBrowser d s with ⟨r, s₁, t₁⟩
  cases r with
  | error e => rfl
  | ok p =>
    dsimp only
    cases hr : d.readRes p <;> simp [hr]

theorem actCase_state (d : Driver) (s : ToolState) (req : Option ActRequest) :
    (actCase d s req).2.1 = s ∨
    (actCase d s req).2.1 = (ensureBrowser d s).2.1 := by
  unfold actCase
  cases req with
  | none => exact Or.inl rfl
  | some r =>
    dsimp only
    rcases hens : ensureBrowser d s with ⟨res, s₁, t₁⟩
    cases res with
    | error e => right; rfl
    | ok p =>
      right
      cases r.kind <;> dsimp only <;> (repeat' split) <;> rfl

theorem closeCase_state (d : Driver) (s : ToolState) :
    (closeCase d s).2.1 = (closeBrowser d s).2.1 := by
  unfold closeCase
  rcases h : closeBrowser d s with ⟨r, s₁, t₁⟩
  cases r <;> rfl

theorem inv_closeBrowser (d : Driver) (s : ToolState) (h : StateInv s) :
    StateInv (closeBrowser d s).2.1 := by
  unfold closeBrowser
  by_cases hb : s.browser = true
  · rw [if_pos hb]
    cases hres : d.closeRes with
    | error e => exact h
    | ok u =>
      constructor
      · intro hp
        exact absurd hp (by simp)
      · intro _
        rfl
  · rw [if_neg hb]
    exact h

theorem inv_snapshotCase (d : Driver) (s : ToolState) (mc : Option Nat)
    (h : StateInv s) : StateInv (snapshotCase d s mc).2.1 := by
  unfold snapshotCase
  rcases hens : ensureBrowser d s with ⟨r, s₁, t₁⟩
  cases r with
  | error e =>
    have := inv_ensure d s h
    rw [hens] at this
    exact this
  | ok p =>
    have hb₁ : s₁.browser = true := (ensureBrowser_ok_browser hens).1
    dsimp only
    rcases hts : takeSnapshot d p mc s₁ with ⟨r₂, s₂, t₂⟩
    have hbr : s₂.browser = s₁.browser := by
      have := (takeSnapshot_browser_page d p mc s₁).1
      rw [hts] at this
      exact this
    cases r₂ with
    | error e => exact inv_of_browser_true (hbr.trans hb₁)
    | ok pr =>
      obtain ⟨snap, trunc⟩ := pr
      exact inv_of_browser_true (hbr.trans hb₁)

theorem inv_openCase (d : Driver) (s : ToolState) (url : Option String)
    (h : StateInv s) : StateInv (openCase d s url).2.1 := by
  unfold openCase
  by_cases hu : strFalsy url = true
  · simp only [hu, if_true]
    exact h
  · simp only [hu, if_false, Bool.false_eq_true]
    rcases hens : ensureBrowser d s with ⟨r, s₁, t₁⟩
    cases r with
    | error e =>
      have := inv_ensure d s h
      rw [hens] at this
      exact this
    | ok p =>
      have hb₁ : s₁.browser = true := (ensureBrowser_ok_browser hens).1
      cases hn : d.newPageRes with
      | error e => exact inv_of_browser_true hb₁
      | ok u =>
        cases hg : d.gotoRes (url.getD "") with
        | error e => exact inv_of_browser_true hb₁
        | ok u2 => exact inv_of_browser_true hb₁

theorem inv_runAction (d : Driver) (s : ToolState) (a : Action)
    (u : Option String) (m : Option Nat) (req : Option ActRequest)
    (h : StateInv s) : StateInv (runAction d s a u m req).2.1 := by
  cases a with
  | navigate =>
    rcases navigateCase_state d s u with he | he <;> rw [runAction, he]
    · exact h
    · exact inv_ensure d s h
  | openTab => exact inv_openCase d s u h
  | snapshot => exact inv_snapshotCase d s m h
  | act =>
    rcases actCase_state d s req with he | he <;> rw [runAction, he]
    · exact h
    · exact inv_ensure d s h
  | read =>
    rw [runAction, readCase_state]
    exact inv_ensure d s h
  | close =>
    rw [runAction, closeCase_state]
    exact inv_closeBrowser d s h

theorem browserFunc_state (d : Driver) (s : ToolState) (a : Action)
    (u : Option String) (m : Option Nat) (req : Option ActRequest) :
    (browserFunc d s a u m req).2.1 = (runAction d s a u m req).2.1 := by
  unfold browserFunc
  rcases h : runAction d s a u m req with ⟨r, s', t⟩
  cases r <;> rfl

/-- C10: in every state reachable from the uninitialized state by any
sequence of tool invocations (any actions, any driver behaviors,
including failing drivers), the active page exists only when the
browser does, and the ref table is empty whenever the browser is
absent. -/
theorem c10_state_invariant :
    ∀ script : List (Driver × Action × Option String × Option Nat × Option ActRequest),
      StateInv (runScript initialState script) := by
  have hstep : ∀ script s, StateInv s → StateInv (runScript s script) := by
    intro script
    induction script with
    | nil => exact fun s h => h
    | cons step rest ih =>
      intro s h
      obtain ⟨d, a, u, m, req⟩ := step
      show StateInv (runScript (browserFunc d s a u m req).2.1 rest)
      refine ih _ ?_
      rw [browserFunc_state]
      exact inv_runAction d s a u m req h
  intro script
  refine hstep script initialState ?_
  constructor
  · intro hp
    cases hp
  · intro _
    rfl

end Browser
